import Mathlib

/-!
Verification of the diagnostic-reporting subsystem of langium-sql
(packages/langium-sql/src/sql-error-codes.ts): a factory that builds
typed error reporters and a fixed catalog (ReportAs) of 13 reporters.
The embedding models a reporter invocation by the single call it makes
to the validation acceptor (the sink); the trace of sink calls is made
observable by instantiating the sink with a collecting function.
-/

set_option autoImplicit false

/-- Severity levels of SQL diagnostics, mirroring the string union
type SqlErrorSeverity of the source. -/
inductive SqlErrorSeverity where
  | error
  | warning
  | info
  | hint
  deriving DecidableEq

/-- Model of a JavaScript number as it is observed by the message
renderers: template literals only stringify the value, so the model
keeps the integral finite values plus the non-finite boundary values
NaN and the two infinities. -/
inductive JSNum where
  | finite (v : Int)
  | nan
  | inf (neg : Bool)
  deriving DecidableEq

/-- Textual form of a modelled JavaScript number, as produced by a
template literal interpolation. -/
def jsNumToString : JSNum → String
  | JSNum.finite v => toString v
  | JSNum.nan => "NaN"
  | JSNum.inf false => "Infinity"
  | JSNum.inf true => "-Infinity"

/-- The fields of langium's DiagnosticInfo that the source reads or
writes: the node, an optional property narrowing the span, an optional
index into a repeated property, and the code stamped by the factory. -/
structure DiagnosticInfo (T : Type) where
  node : T
  property : Option String := none
  index : Option Nat := none
  code : Option String := none
  deriving DecidableEq

/-- One call forwarded to the validation acceptor: the severity, the
rendered message and the stamped diagnostic info. -/
structure SinkCall (T : Type) where
  severity : SqlErrorSeverity
  message : String
  info : DiagnosticInfo T
  deriving DecidableEq

/-- A reporter value: callable with a node, a parameter record and an
acceptor, and exposing the code it was created with. The acceptor is
polymorphic in its result so that a collecting acceptor can observe
the calls the reporter makes. -/
structure SqlErrorReporter (T P : Type) where
  call : {ρ : Type} → T → P → (SqlErrorSeverity → String → DiagnosticInfo T → ρ) → ρ
  Code : String

/-- SqlErrorFactory.create of the source: builds a reporter that
renders the message from the parameter record, resolves the diagnostic
info from the node, stamps it with the code, and forwards the triple
to the acceptor. -/
def SqlErrorFactory.create {T P : Type} (code : String) (severity : SqlErrorSeverity)
    (messageGenerator : P → String)
    (diagnosticGenerator : T → DiagnosticInfo T) : SqlErrorReporter T P :=
  { call := fun node props accept =>
      accept severity (messageGenerator props)
        ((fun node => { diagnosticGenerator node with code := some code }) node)
    Code := code }

/-- Trace semantics of one reporter invocation: the list of calls the
reporter makes to the sink, observed by a collecting acceptor. -/
def SqlErrorReporter.run {T P : Type} (r : SqlErrorReporter T P) (node : T) (props : P) :
    List (SinkCall T) :=
  r.call node props (fun s m i => [{ severity := s, message := m, info := i }])

/-- Modelled from the spec: the generated AST type ast.SourceItem is not
under src (it comes from the generated grammar layer); the reporters
treat it as an opaque node reference, so it is modelled as an opaque
carrier. -/
structure SourceItem where
  id : Nat
  deriving DecidableEq

/-- Modelled from the spec: ast.NumberLiteral of the generated AST layer,
exposing the numeric value that the UnknownDataType renderer reads. -/
structure NumberLiteral where
  value : JSNum
  deriving DecidableEq

/-- Modelled from the spec: opaque carrier for ast.BinaryExpression. -/
structure BinaryExpression where
  id : Nat
  deriving DecidableEq

/-- Modelled from the spec: opaque carrier for ast.UnaryExpression. -/
structure UnaryExpression where
  id : Nat
  deriving DecidableEq

/-- Modelled from the spec: opaque carrier for ast.Expression. -/
structure Expression where
  id : Nat
  deriving DecidableEq

/-- Modelled from the spec: opaque carrier for ast.SimpleSelectStatement. -/
structure SimpleSelectStatement where
  id : Nat
  deriving DecidableEq

/-- Modelled from the spec: opaque carrier for ast.GlobalReference. -/
structure GlobalReference where
  id : Nat
  deriving DecidableEq

/-- Modelled from the spec: opaque carrier for ast.SubQueryExpression. -/
structure SubQueryExpression where
  id : Nat
  deriving DecidableEq

/-- Modelled from the spec: opaque carrier for ast.BinaryTableExpression. -/
structure BinaryTableExpression where
  id : Nat
  deriving DecidableEq

/-- Modelled from the spec: ast.DataType of the generated AST layer, with
the two fields the UnknownDataType renderer reads: the data type name
words and the numeric arguments. -/
structure DataType where
  dataTypeNames : List String
  arguments : List NumberLiteral
  deriving DecidableEq

/-- A type descriptor from the external type-analysis layer, of which
the renderers only read the discriminator label. -/
structure TypeDescriptor where
  discriminator : String
  deriving DecidableEq

/-- Binary operator token, a string in the source. -/
abbrev BinaryOperator := String

/-- Unary operator token, a string in the source. -/
abbrev UnaryOperator := String

/-- Parameter record with a name, as in the source. -/
structure Nameable where
  name : String
  deriving DecidableEq

/-- Parameter record with a numeric value, as in the source. -/
structure NumericValue where
  value : JSNum
  deriving DecidableEq

/-- BinaryOperatorMismatch of the source. -/
structure BinaryOperatorMismatch where
  op : BinaryOperator
  left : TypeDescriptor
  right : TypeDescriptor
  deriving DecidableEq

/-- UnaryOperatorMismatch of the source. -/
structure UnaryOperatorMismatch where
  op : UnaryOperator
  operand : TypeDescriptor
  deriving DecidableEq

/-- The inline parameter shape of TableOperationUsesTablesWithDifferentColumnTypes. -/
structure ColumnIndexed where
  columnIndex : JSNum
  deriving DecidableEq

/-- The inline parameter shape of IncorrectGlobalReferenceTarget. -/
structure ExpectedReceived where
  expected : String
  received : String
  deriving DecidableEq

/-- The inline parameter shape of UnknownDataType. -/
structure DataTypeParam where
  dataType : DataType
  deriving DecidableEq

/-- Message of DuplicatedVariableName. -/
def duplicatedVariableNameMessage (p : Nameable) : String :=
  "Duplicated variable name '" ++ p.name ++ "'."

/-- Diagnostic resolver of DuplicatedVariableName. -/
def duplicatedVariableNameDiagnostic (node : SourceItem) : DiagnosticInfo SourceItem :=
  { node := node, property := some "name" }

/-- Message of NumericValueIsNotInteger. -/
def numericValueIsNotIntegerMessage (p : NumericValue) : String :=
  "Value '" ++ jsNumToString p.value ++ "' is not an integer."

/-- Diagnostic resolver of NumericValueIsNotInteger. -/
def numericValueIsNotIntegerDiagnostic (node : NumberLiteral) : DiagnosticInfo NumberLiteral :=
  { node := node, property := some "value" }

/-- Message of BinaryOperatorNotDefinedForGivenExpressions. -/
def binaryOperatorNotDefinedMessage (p : BinaryOperatorMismatch) : String :=
  "Binary operator '" ++ p.op ++ "' is not defined for ('" ++ p.left.discriminator ++
    "', '" ++ p.right.discriminator ++ "')."

/-- Diagnostic resolver of BinaryOperatorNotDefinedForGivenExpressions. -/
def binaryOperatorNotDefinedDiagnostic (node : BinaryExpression) : DiagnosticInfo BinaryExpression :=
  { node := node, property := some "operator" }

/-- Message of UnaryOperatorNotDefinedForGivenExpression. -/
def unaryOperatorNotDefinedMessage (p : UnaryOperatorMismatch) : String :=
  "Unary operator '" ++ p.op ++ "' is not defined for '" ++ p.operand.discriminator ++ "'."

/-- Diagnostic resolver of UnaryOperatorNotDefinedForGivenExpression. -/
def unaryOperatorNotDefinedDiagnostic (node : UnaryExpression) : DiagnosticInfo UnaryExpression :=
  { node := node, property := some "operator" }

/-- Message of ExpressionMustReturnABoolean. -/
def expressionMustReturnABooleanMessage (operand : TypeDescriptor) : String :=
  "Expression must return a boolean, not a '" ++ operand.discriminator ++ "'."

/-- Diagnostic resolver of ExpressionMustReturnABoolean. -/
def expressionMustReturnABooleanDiagnostic (node : Expression) : DiagnosticInfo Expression :=
  { node := node }

/-- Message of AllStarSelectionRequiresTableSources. -/
def allStarSelectionMessage (_ : Unit) : String :=
  "All-star selection requires table sources (FROM is missing)."

/-- Diagnostic resolver of AllStarSelectionRequiresTableSources. -/
def allStarSelectionDiagnostic (node : SimpleSelectStatement) : DiagnosticInfo SimpleSelectStatement :=
  { node := node }

/-- Message of TableDefinitionRequiresAtLeastOneColumn. -/
def tableDefinitionRequiresColumnMessage (_ : Unit) : String :=
  "Table definition requires at least one column."

/-- Diagnostic resolver of TableDefinitionRequiresAtLeastOneColumn. -/
def tableDefinitionRequiresColumnDiagnostic (node : GlobalReference) : DiagnosticInfo GlobalReference :=
  { node := node, property := some "element" }

/-- Message of SubQueriesWithinSelectStatementsMustHaveExactlyOneColumn. -/
def subQueriesOneColumnMessage (_ : Unit) : String :=
  "Sub queries within select statements must have exactly one column."

/-- Diagnostic resolver of SubQueriesWithinSelectStatementsMustHaveExactlyOneColumn. -/
def subQueriesOneColumnDiagnostic (node : SubQueryExpression) : DiagnosticInfo SubQueryExpression :=
  { node := node, property := some "subQuery" }

/-- Message of CannotDeriveTypeOfExpression. -/
def cannotDeriveTypeMessage (_ : Unit) : String :=
  "Unable to derive the type of the expression."

/-- Diagnostic resolver of CannotDeriveTypeOfExpression. -/
def cannotDeriveTypeDiagnostic (node : Expression) : DiagnosticInfo Expression :=
  { node := node }

/-- Message of TableOperationUsesTablesWithDifferentColumnCounts. -/
def differentColumnCountsMessage (_ : Unit) : String :=
  "This operation uses tables with different amounts of columns, which is forbidden. Please add the missing columns."

/-- Diagnostic resolver of TableOperationUsesTablesWithDifferentColumnCounts. -/
def differentColumnCountsDiagnostic (node : BinaryTableExpression) : DiagnosticInfo BinaryTableExpression :=
  { node := node, property := some "operator" }

/-- Message of TableOperationUsesTablesWithDifferentColumnTypes. -/
def differentColumnTypesMessage (p : ColumnIndexed) : String :=
  "This operation uses tables with different columns types! Compare the columns at index " ++
    jsNumToString p.columnIndex ++ ". They are not convertable to each other."

/-- Diagnostic resolver of TableOperationUsesTablesWithDifferentColumnTypes. -/
def differentColumnTypesDiagnostic (node : BinaryTableExpression) : DiagnosticInfo BinaryTableExpression :=
  { node := node, property := some "operator" }

/-- Message of IncorrectGlobalReferenceTarget. -/
def incorrectGlobalReferenceTargetMessage (p : ExpectedReceived) : String :=
  "Expected definition of type '" ++ p.expected ++ "' but received '" ++ p.received ++ "'."

/-- Diagnostic resolver of IncorrectGlobalReferenceTarget. -/
def incorrectGlobalReferenceTargetDiagnostic (node : GlobalReference) : DiagnosticInfo GlobalReference :=
  { node := node, property := some "element" }

/-- Textual form of the data type name words of a DataType, as rendered
by the UnknownDataType message. -/
def dataTypeNamesText (dt : DataType) : String :=
  String.intercalate " " dt.dataTypeNames

/-- Textual form of the numeric arguments of a DataType, as rendered by
the UnknownDataType message. -/
def dataTypeArgumentsText (dt : DataType) : String :=
  String.intercalate ", " (dt.arguments.map (fun a => jsNumToString a.value))

/-- Message of UnknownDataType. -/
def unknownDataTypeMessage (p : DataTypeParam) : String :=
  "Unknown data type '" ++ dataTypeNamesText p.dataType ++ "(" ++
    dataTypeArgumentsText p.dataType ++ ")'."

/-- Diagnostic resolver of UnknownDataType. -/
def unknownDataTypeDiagnostic (node : DataType) : DiagnosticInfo DataType :=
  { node := node }

/-- Catalog entry DuplicatedVariableName (SQL00001). -/
def ReportAs.DuplicatedVariableName : SqlErrorReporter SourceItem Nameable :=
  SqlErrorFactory.create "SQL00001" SqlErrorSeverity.error
    duplicatedVariableNameMessage duplicatedVariableNameDiagnostic

/-- Catalog entry NumericValueIsNotInteger (SQL00002). -/
def ReportAs.NumericValueIsNotInteger : SqlErrorReporter NumberLiteral NumericValue :=
  SqlErrorFactory.create "SQL00002" SqlErrorSeverity.error
    numericValueIsNotIntegerMessage numericValueIsNotIntegerDiagnostic

/-- Catalog entry BinaryOperatorNotDefinedForGivenExpressions (SQL00003). -/
def ReportAs.BinaryOperatorNotDefinedForGivenExpressions :
    SqlErrorReporter BinaryExpression BinaryOperatorMismatch :=
  SqlErrorFactory.create "SQL00003" SqlErrorSeverity.error
    binaryOperatorNotDefinedMessage binaryOperatorNotDefinedDiagnostic

/-- Catalog entry UnaryOperatorNotDefinedForGivenExpression (SQL00004). -/
def ReportAs.UnaryOperatorNotDefinedForGivenExpression :
    SqlErrorReporter UnaryExpression UnaryOperatorMismatch :=
  SqlErrorFactory.create "SQL00004" SqlErrorSeverity.error
    unaryOperatorNotDefinedMessage unaryOperatorNotDefinedDiagnostic

/-- Catalog entry ExpressionMustReturnABoolean (SQL00005). -/
def ReportAs.ExpressionMustReturnABoolean : SqlErrorReporter Expression TypeDescriptor :=
  SqlErrorFactory.create "SQL00005" SqlErrorSeverity.error
    expressionMustReturnABooleanMessage expressionMustReturnABooleanDiagnostic

/-- Catalog entry AllStarSelectionRequiresTableSources (SQL00006). -/
def ReportAs.AllStarSelectionRequiresTableSources : SqlErrorReporter SimpleSelectStatement Unit :=
  SqlErrorFactory.create "SQL00006" SqlErrorSeverity.error
    allStarSelectionMessage allStarSelectionDiagnostic

/-- Catalog entry TableDefinitionRequiresAtLeastOneColumn (SQL00007). -/
def ReportAs.TableDefinitionRequiresAtLeastOneColumn : SqlErrorReporter GlobalReference Unit :=
  SqlErrorFactory.create "SQL00007" SqlErrorSeverity.error
    tableDefinitionRequiresColumnMessage tableDefinitionRequiresColumnDiagnostic

/-- Catalog entry SubQueriesWithinSelectStatementsMustHaveExactlyOneColumn (SQL00008). -/
def ReportAs.SubQueriesWithinSelectStatementsMustHaveExactlyOneColumn :
    SqlErrorReporter SubQueryExpression Unit :=
  SqlErrorFactory.create "SQL00008" SqlErrorSeverity.error
    subQueriesOneColumnMessage subQueriesOneColumnDiagnostic

/-- Catalog entry CannotDeriveTypeOfExpression (SQL00009). -/
def ReportAs.CannotDeriveTypeOfExpression : SqlErrorReporter Expression Unit :=
  SqlErrorFactory.create "SQL00009" SqlErrorSeverity.error
    cannotDeriveTypeMessage cannotDeriveTypeDiagnostic

/-- Catalog entry TableOperationUsesTablesWithDifferentColumnCounts (SQL00010). -/
def ReportAs.TableOperationUsesTablesWithDifferentColumnCounts :
    SqlErrorReporter BinaryTableExpression Unit :=
  SqlErrorFactory.create "SQL00010" SqlErrorSeverity.error
    differentColumnCountsMessage differentColumnCountsDiagnostic

/-- Catalog entry TableOperationUsesTablesWithDifferentColumnTypes (SQL00011). -/
def ReportAs.TableOperationUsesTablesWithDifferentColumnTypes :
    SqlErrorReporter BinaryTableExpression ColumnIndexed :=
  SqlErrorFactory.create "SQL00011" SqlErrorSeverity.error
    differentColumnTypesMessage differentColumnTypesDiagnostic

/-- Catalog entry IncorrectGlobalReferenceTarget (SQL00012). -/
def ReportAs.IncorrectGlobalReferenceTarget : SqlErrorReporter GlobalReference ExpectedReceived :=
  SqlErrorFactory.create "SQL00012" SqlErrorSeverity.error
    incorrectGlobalReferenceTargetMessage incorrectGlobalReferenceTargetDiagnostic

/-- Catalog entry UnknownDataType (SQL00013). -/
def ReportAs.UnknownDataType : SqlErrorReporter DataType DataTypeParam :=
  SqlErrorFactory.create "SQL00013" SqlErrorSeverity.error
    unknownDataTypeMessage unknownDataTypeDiagnostic

/-- The codes of the 13 catalog entries, in catalog order. -/
def catalogCodes : List String :=
  [ReportAs.DuplicatedVariableName.Code,
   ReportAs.NumericValueIsNotInteger.Code,
   ReportAs.BinaryOperatorNotDefinedForGivenExpressions.Code,
   ReportAs.UnaryOperatorNotDefinedForGivenExpression.Code,
   ReportAs.ExpressionMustReturnABoolean.Code,
   ReportAs.AllStarSelectionRequiresTableSources.Code,
   ReportAs.TableDefinitionRequiresAtLeastOneColumn.Code,
   ReportAs.SubQueriesWithinSelectStatementsMustHaveExactlyOneColumn.Code,
   ReportAs.CannotDeriveTypeOfExpression.Code,
   ReportAs.TableOperationUsesTablesWithDifferentColumnCounts.Code,
   ReportAs.TableOperationUsesTablesWithDifferentColumnTypes.Code,
   ReportAs.IncorrectGlobalReferenceTarget.Code,
   ReportAs.UnknownDataType.Code]

/-- The canonical SQL code string for the n-th error condition: the
letters SQL followed by the decimal digits of n left-padded with zeros
to five places. -/
def sqlCodeFor (n : Nat) : String :=
  "SQL" ++ String.mk (List.replicate (5 - (toString n).length) '0') ++ toString n

/-- Decides whether a character list starts with the given pattern. -/
def charsPre : List Char → List Char → Bool
  | [], _ => true
  | _ :: _, [] => false
  | a :: as, b :: bs => a == b && charsPre as bs

/-- Decides whether a character list occurs contiguously inside another. -/
def charsSub (needle : List Char) : List Char → Bool
  | [] => charsPre needle []
  | b :: bs => charsPre needle (b :: bs) || charsSub needle bs

/-- Decides whether the second string occurs contiguously inside the first. -/
def strContains (hay needle : String) : Bool :=
  charsSub needle.data hay.data

/-- Contract of one catalog entry: every invocation makes exactly one
sink call, carrying the given severity, the message produced by the
given renderer, and a diagnostic info that references the invoked node
at the given property and is stamped with the given code. -/
def entryContract {T P : Type} (r : SqlErrorReporter T P) (code : String)
    (sev : SqlErrorSeverity) (msg : P → String) (prop : Option String) : Prop :=
  ∀ (n : T) (p : P), r.run n p = [⟨sev, msg p, ⟨n, prop, none, some code⟩⟩]

theorem strData_append (a b : String) : (a ++ b).data = a.data ++ b.data := by
  cases a
  cases b
  rfl

theorem strLen_append (a b : String) : (a ++ b).length = a.length + b.length := by
  show (a ++ b).data.length = a.data.length + b.data.length
  rw [strData_append, List.length_append]

theorem strPosLen_append_left {a : String} (b : String) (h : 0 < a.length) :
    0 < (a ++ b).length := by
  rw [strLen_append]
  omega

theorem strNe_empty_of_posLen {s : String} (h : 0 < s.length) : s ≠ "" := by
  intro he
  subst he
  exact absurd h (by decide)

theorem charsPre_append_self (n t : List Char) : charsPre n (n ++ t) = true := by
  induction n with
  | nil => rfl
  | cons a as ih => simp [charsPre, ih]

theorem charsSub_of_charsPre {n h : List Char} (hp : charsPre n h = true) :
    charsSub n h = true := by
  cases h with
  | nil => simpa [charsSub] using hp
  | cons b bs => simp [charsSub, hp]

theorem charsSub_append_left {n t : List Char} (a : List Char) (h : charsSub n t = true) :
    charsSub n (a ++ t) = true := by
  induction a with
  | nil => simpa using h
  | cons c cs ih => simp [charsSub, ih]

theorem severity_of_run_create {T P : Type} (c : String) (s : SqlErrorSeverity)
    (m : P → String) (d : T → DiagnosticInfo T) (n : T) (p : P) :
    ∀ k ∈ (SqlErrorFactory.create c s m d).run n p, k.severity = s := by
  intro k hk
  have hk' : k ∈ [(⟨s, m p, { d n with code := some c }⟩ : SinkCall T)] := hk
  rw [List.mem_singleton] at hk'
  subst hk'
  rfl

/-- C1: every one of the 13 catalog entries, invoked with a node of its
declared AST type and a well-formed parameter record, produces exactly
one diagnostic carrying the entry's fixed code and severity, a
non-empty message containing the textual form of every supplied
parameter value, and a location referencing the entry's declared
property (or the whole node when none is declared). -/
theorem C1_catalog_entry_contract :
    (entryContract ReportAs.DuplicatedVariableName "SQL00001" SqlErrorSeverity.error
        duplicatedVariableNameMessage (some "name") ∧
      ∀ p : Nameable, duplicatedVariableNameMessage p ≠ "" ∧
        strContains (duplicatedVariableNameMessage p) p.name = true) ∧
    (entryContract ReportAs.NumericValueIsNotInteger "SQL00002" SqlErrorSeverity.error
        numericValueIsNotIntegerMessage (some "value") ∧
      ∀ p : NumericValue, numericValueIsNotIntegerMessage p ≠ "" ∧
        strContains (numericValueIsNotIntegerMessage p) (jsNumToString p.value) = true) ∧
    (entryContract ReportAs.BinaryOperatorNotDefinedForGivenExpressions "SQL00003"
        SqlErrorSeverity.error binaryOperatorNotDefinedMessage (some "operator") ∧
      ∀ p : BinaryOperatorMismatch, binaryOperatorNotDefinedMessage p ≠ "" ∧
        strContains (binaryOperatorNotDefinedMessage p) p.op = true ∧
        strContains (binaryOperatorNotDefinedMessage p) p.left.discriminator = true ∧
        strContains (binaryOperatorNotDefinedMessage p) p.right.discriminator = true) ∧
    (entryContract ReportAs.UnaryOperatorNotDefinedForGivenExpression "SQL00004"
        SqlErrorSeverity.error unaryOperatorNotDefinedMessage (some "operator") ∧
      ∀ p : UnaryOperatorMismatch, unaryOperatorNotDefinedMessage p ≠ "" ∧
        strContains (unaryOperatorNotDefinedMessage p) p.op = true ∧
        strContains (unaryOperatorNotDefinedMessage p) p.operand.discriminator = true) ∧
    (entryContract ReportAs.ExpressionMustReturnABoolean "SQL00005" SqlErrorSeverity.error
        expressionMustReturnABooleanMessage none ∧
      ∀ p : TypeDescriptor, expressionMustReturnABooleanMessage p ≠ "" ∧
        strContains (expressionMustReturnABooleanMessage p) p.discriminator = true) ∧
    (entryContract ReportAs.AllStarSelectionRequiresTableSources "SQL00006"
        SqlErrorSeverity.error allStarSelectionMessage none ∧
      ∀ p : Unit, allStarSelectionMessage p ≠ "") ∧
    (entryContract ReportAs.TableDefinitionRequiresAtLeastOneColumn "SQL00007"
        SqlErrorSeverity.error tableDefinitionRequiresColumnMessage (some "element") ∧
      ∀ p : Unit, tableDefinitionRequiresColumnMessage p ≠ "") ∧
    (entryContract ReportAs.SubQueriesWithinSelectStatementsMustHaveExactlyOneColumn
        "SQL00008" SqlErrorSeverity.error subQueriesOneColumnMessage (some "subQuery") ∧
      ∀ p : Unit, subQueriesOneColumnMessage p ≠ "") ∧
    (entryContract ReportAs.CannotDeriveTypeOfExpression "SQL00009" SqlErrorSeverity.error
        cannotDeriveTypeMessage none ∧
      ∀ p : Unit, cannotDeriveTypeMessage p ≠ "") ∧
    (entryContract ReportAs.TableOperationUsesTablesWithDifferentColumnCounts "SQL00010"
        SqlErrorSeverity.error differentColumnCountsMessage (some "operator") ∧
      ∀ p : Unit, differentColumnCountsMessage p ≠ "") ∧
    (entryContract ReportAs.TableOperationUsesTablesWithDifferentColumnTypes "SQL00011"
        SqlErrorSeverity.error differentColumnTypesMessage (some "operator") ∧
      ∀ p : ColumnIndexed, differentColumnTypesMessage p ≠ "" ∧
        strContains (differentColumnTypesMessage p) (jsNumToString p.columnIndex) = true) ∧
    (entryContract ReportAs.IncorrectGlobalReferenceTarget "SQL00012" SqlErrorSeverity.error
        incorrectGlobalReferenceTargetMessage (some "element") ∧
      ∀ p : ExpectedReceived, incorrectGlobalReferenceTargetMessage p ≠ "" ∧
        strContains (incorrectGlobalReferenceTargetMessage p) p.expected = true ∧
        strContains (incorrectGlobalReferenceTargetMessage p) p.received = true) ∧
    (entryContract ReportAs.UnknownDataType "SQL00013" SqlErrorSeverity.error
        unknownDataTypeMessage none ∧
      ∀ p : DataTypeParam, unknownDataTypeMessage p ≠ "" ∧
        strContains (unknownDataTypeMessage p) (dataTypeNamesText p.dataType) = true ∧
        strContains (unknownDataTypeMessage p) (dataTypeArgumentsText p.dataType) = true) :=
  ⟨⟨fun n p => rfl, fun p =>
    ⟨strNe_empty_of_posLen (strPosLen_append_left _ (strPosLen_append_left _ (by decide))),
     by
      simp only [duplicatedVariableNameMessage, strContains, strData_append, List.append_assoc]
      exact charsSub_append_left _ (charsSub_of_charsPre (charsPre_append_self _ _))⟩⟩,
   ⟨fun n p => rfl, fun p =>
    ⟨strNe_empty_of_posLen (strPosLen_append_left _ (strPosLen_append_left _ (by decide))),
     by
      simp only [numericValueIsNotIntegerMessage, strContains, strData_append, List.append_assoc]
      exact charsSub_append_left _ (charsSub_of_charsPre (charsPre_append_self _ _))⟩⟩,
   ⟨fun n p => rfl, fun p =>
    ⟨strNe_empty_of_posLen (strPosLen_append_left _ (strPosLen_append_left _
        (strPosLen_append_left _ (strPosLen_append_left _ (strPosLen_append_left _
          (strPosLen_append_left _ (by decide))))))),
     by
      simp only [binaryOperatorNotDefinedMessage, strContains, strData_append, List.append_assoc]
      exact charsSub_append_left _ (charsSub_of_charsPre (charsPre_append_self _ _)),
     by
      simp only [binaryOperatorNotDefinedMessage, strContains, strData_append, List.append_assoc]
      exact charsSub_append_left _ (charsSub_append_left _ (charsSub_append_left _
        (charsSub_of_charsPre (charsPre_append_self _ _)))),
     by
      simp only [binaryOperatorNotDefinedMessage, strContains, strData_append, List.append_assoc]
      exact charsSub_append_left _ (charsSub_append_left _ (charsSub_append_left _
        (charsSub_append_left _ (charsSub_append_left _
          (charsSub_of_charsPre (charsPre_append_self _ _))))))⟩⟩,
   ⟨fun n p => rfl, fun p =>
    ⟨strNe_empty_of_posLen (strPosLen_append_left _ (strPosLen_append_left _
        (strPosLen_append_left _ (strPosLen_append_left _ (by decide))))),
     by
      simp only [unaryOperatorNotDefinedMessage, strContains, strData_append, List.append_assoc]
      exact charsSub_append_left _ (charsSub_of_charsPre (charsPre_append_self _ _)),
     by
      simp only [unaryOperatorNotDefinedMessage, strContains, strData_append, List.append_assoc]
      exact charsSub_append_left _ (charsSub_append_left _ (charsSub_append_left _
        (charsSub_of_charsPre (charsPre_append_self _ _))))⟩⟩,
   ⟨fun n p => rfl, fun p =>
    ⟨strNe_empty_of_posLen (strPosLen_append_left _ (strPosLen_append_left _ (by decide))),
     by
      simp only [expressionMustReturnABooleanMessage, strContains, strData_append,
        List.append_assoc]
      exact charsSub_append_left _ (charsSub_of_charsPre (charsPre_append_self _ _))⟩⟩,
   ⟨fun n p => rfl, fun p => by cases p; decide⟩,
   ⟨fun n p => rfl, fun p => by cases p; decide⟩,
   ⟨fun n p => rfl, fun p => by cases p; decide⟩,
   ⟨fun n p => rfl, fun p => by cases p; decide⟩,
   ⟨fun n p => rfl, fun p => by cases p; decide⟩,
   ⟨fun n p => rfl, fun p =>
    ⟨strNe_empty_of_posLen (strPosLen_append_left _ (strPosLen_append_left _ (by decide))),
     by
      simp only [differentColumnTypesMessage, strContains, strData_append, List.append_assoc]
      exact charsSub_append_left _ (charsSub_of_charsPre (charsPre_append_self _ _))⟩⟩,
   ⟨fun n p => rfl, fun p =>
    ⟨strNe_empty_of_posLen (strPosLen_append_left _ (strPosLen_append_left _
        (strPosLen_append_left _ (strPosLen_append_left _ (by decide))))),
     by
      simp only [incorrectGlobalReferenceTargetMessage, strContains, strData_append,
        List.append_assoc]
      exact charsSub_append_left _ (charsSub_of_charsPre (charsPre_append_self _ _)),
     by
      simp only [incorrectGlobalReferenceTargetMessage, strContains, strData_append,
        List.append_assoc]
      exact charsSub_append_left _ (charsSub_append_left _ (charsSub_append_left _
        (charsSub_of_charsPre (charsPre_append_self _ _))))⟩⟩,
   ⟨fun n p => rfl, fun p =>
    ⟨strNe_empty_of_posLen (strPosLen_append_left _ (strPosLen_append_left _
        (strPosLen_append_left _ (strPosLen_append_left _ (by decide))))),
     by
      simp only [unknownDataTypeMessage, strContains, strData_append, List.append_assoc]
      exact charsSub_append_left _ (charsSub_of_charsPre (charsPre_append_self _ _)),
     by
      simp only [unknownDataTypeMessage, strContains, strData_append, List.append_assoc]
      exact charsSub_append_left _ (charsSub_append_left _ (charsSub_append_left _
        (charsSub_of_charsPre (charsPre_append_self _ _))))⟩⟩⟩

/-- C2: the 13 catalog codes are pairwise distinct, follow the pattern
SQL plus five digits, and are assigned sequentially in catalog order
as SQL00001 through SQL00013 with no gaps or reuse. -/
theorem C2_codes_distinct_sequential :
    catalogCodes = ["SQL00001", "SQL00002", "SQL00003", "SQL00004", "SQL00005", "SQL00006",
      "SQL00007", "SQL00008", "SQL00009", "SQL00010", "SQL00011", "SQL00012", "SQL00013"] ∧
    catalogCodes.Nodup ∧
    catalogCodes = (List.range 13).map (fun i => sqlCodeFor (i + 1)) ∧
    ∀ c ∈ catalogCodes, c.data.take 3 = ['S', 'Q', 'L'] ∧ (c.data.drop 3).length = 5 ∧
      (c.data.drop 3).all Char.isDigit = true :=
  ⟨rfl, by decide, by decide, by decide⟩

/-- Witness for C2 at the concrete code SQL00001. -/
theorem C2_witness :
    "SQL00001" ∈ catalogCodes ∧ ("SQL00001").data.take 3 = ['S', 'Q', 'L'] ∧
      (("SQL00001").data.drop 3).length = 5 ∧
      (("SQL00001").data.drop 3).all Char.isDigit = true :=
  ⟨by decide, C2_codes_distinct_sequential.2.2.2 "SQL00001" (by decide)⟩

/-- C3: message rendering never fails: every reporter invocation is
total and produces exactly one diagnostic for every value of the
declared parameter type, including boundary values (zero, empty
strings, non-finite numbers), and an out-of-domain numeric value is
degraded to its literal textual representation in the message. -/
theorem C3_rendering_never_fails :
    (∀ (n : SourceItem) (p : Nameable), (ReportAs.DuplicatedVariableName.run n p).length = 1) ∧
    (∀ (n : NumberLiteral) (p : NumericValue), (ReportAs.NumericValueIsNotInteger.run n p).length = 1) ∧
    (∀ (n : BinaryExpression) (p : BinaryOperatorMismatch), (ReportAs.BinaryOperatorNotDefinedForGivenExpressions.run n p).length = 1) ∧
    (∀ (n : UnaryExpression) (p : UnaryOperatorMismatch), (ReportAs.UnaryOperatorNotDefinedForGivenExpression.run n p).length = 1) ∧
    (∀ (n : Expression) (p : TypeDescriptor), (ReportAs.ExpressionMustReturnABoolean.run n p).length = 1) ∧
    (∀ (n : SimpleSelectStatement) (p : Unit), (ReportAs.AllStarSelectionRequiresTableSources.run n p).length = 1) ∧
    (∀ (n : GlobalReference) (p : Unit), (ReportAs.TableDefinitionRequiresAtLeastOneColumn.run n p).length = 1) ∧
    (∀ (n : SubQueryExpression) (p : Unit), (ReportAs.SubQueriesWithinSelectStatementsMustHaveExactlyOneColumn.run n p).length = 1) ∧
    (∀ (n : Expression) (p : Unit), (ReportAs.CannotDeriveTypeOfExpression.run n p).length = 1) ∧
    (∀ (n : BinaryTableExpression) (p : Unit), (ReportAs.TableOperationUsesTablesWithDifferentColumnCounts.run n p).length = 1) ∧
    (∀ (n : BinaryTableExpression) (p : ColumnIndexed), (ReportAs.TableOperationUsesTablesWithDifferentColumnTypes.run n p).length = 1) ∧
    (∀ (n : GlobalReference) (p : ExpectedReceived), (ReportAs.IncorrectGlobalReferenceTarget.run n p).length = 1) ∧
    (∀ (n : DataType) (p : DataTypeParam), (ReportAs.UnknownDataType.run n p).length = 1) ∧
    (jsNumToString JSNum.nan = "NaN" ∧ jsNumToString (JSNum.inf false) = "Infinity" ∧
      jsNumToString (JSNum.inf true) = "-Infinity" ∧ jsNumToString (JSNum.finite 0) = "0") ∧
    (∀ v : JSNum, strContains (numericValueIsNotIntegerMessage ⟨v⟩) (jsNumToString v) = true) ∧
    (∀ v : JSNum, strContains (differentColumnTypesMessage ⟨v⟩) (jsNumToString v) = true) ∧
    (∀ p : BinaryOperatorMismatch, p.op = "" → binaryOperatorNotDefinedMessage p ≠ "") :=
  ⟨fun _ _ => rfl, fun _ _ => rfl, fun _ _ => rfl, fun _ _ => rfl, fun _ _ => rfl, fun _ _ => rfl, fun _ _ => rfl, fun _ _ => rfl, fun _ _ => rfl, fun _ _ => rfl, fun _ _ => rfl, fun _ _ => rfl, fun _ _ => rfl,
   by decide,
   fun v => by
    simp only [numericValueIsNotIntegerMessage, strContains, strData_append, List.append_assoc]
    exact charsSub_append_left _ (charsSub_of_charsPre (charsPre_append_self _ _)),
   fun v => by
    simp only [differentColumnTypesMessage, strContains, strData_append, List.append_assoc]
    exact charsSub_append_left _ (charsSub_of_charsPre (charsPre_append_self _ _)),
   fun p h =>
    strNe_empty_of_posLen (strPosLen_append_left _ (strPosLen_append_left _
      (strPosLen_append_left _ (strPosLen_append_left _ (strPosLen_append_left _
        (strPosLen_append_left _ (by decide)))))))⟩

/-- Witness for C3 at the boundary input with an empty operator string. -/
theorem C3_witness :
    binaryOperatorNotDefinedMessage ⟨"", ⟨"integer"⟩, ⟨"boolean"⟩⟩ ≠ "" :=
  C3_rendering_never_fails.2.2.2.2.2.2.2.2.2.2.2.2.2.2.2.2 ⟨"", ⟨"integer"⟩, ⟨"boolean"⟩⟩ rfl

/-- C4: the duplicate-name reporter invoked with name x on a source
item forwards exactly the message Duplicated variable name 'x'. with
severity error, code SQL00001 and the node's name property as
location. -/
theorem C4_duplicated_variable_name_example (n : SourceItem) :
    ReportAs.DuplicatedVariableName.run n { name := "x" } =
      [⟨SqlErrorSeverity.error, "Duplicated variable name 'x'.",
        ⟨n, some "name", none, some "SQL00001"⟩⟩] := rfl

/-- C5: the column-type mismatch reporter invoked with column index 2
forwards a message containing the substring index 2, with severity
error and code SQL00011. -/
theorem C5_column_type_mismatch_example (n : BinaryTableExpression) :
    ∃ m, ReportAs.TableOperationUsesTablesWithDifferentColumnTypes.run n
        { columnIndex := JSNum.finite 2 } =
        [⟨SqlErrorSeverity.error, m, ⟨n, some "operator", none, some "SQL00011"⟩⟩] ∧
      strContains m "index 2" = true :=
  ⟨_, rfl, by decide⟩

/-- C6: rendering is deterministic and a pure function of the
parameter record alone: two invocations of the same catalog reporter
with equal parameter records (on any nodes) produce identical
messages. -/
theorem C6_rendering_deterministic :
    (∀ (a b : SourceItem) (p q : Nameable), p = q →
      (ReportAs.DuplicatedVariableName.run a p).map SinkCall.message =
        (ReportAs.DuplicatedVariableName.run b q).map SinkCall.message) ∧
    (∀ (a b : NumberLiteral) (p q : NumericValue), p = q →
      (ReportAs.NumericValueIsNotInteger.run a p).map SinkCall.message =
        (ReportAs.NumericValueIsNotInteger.run b q).map SinkCall.message) ∧
    (∀ (a b : BinaryExpression) (p q : BinaryOperatorMismatch), p = q →
      (ReportAs.BinaryOperatorNotDefinedForGivenExpressions.run a p).map SinkCall.message =
        (ReportAs.BinaryOperatorNotDefinedForGivenExpressions.run b q).map SinkCall.message) ∧
    (∀ (a b : UnaryExpression) (p q : UnaryOperatorMismatch), p = q →
      (ReportAs.UnaryOperatorNotDefinedForGivenExpression.run a p).map SinkCall.message =
        (ReportAs.UnaryOperatorNotDefinedForGivenExpression.run b q).map SinkCall.message) ∧
    (∀ (a b : Expression) (p q : TypeDescriptor), p = q →
      (ReportAs.ExpressionMustReturnABoolean.run a p).map SinkCall.message =
        (ReportAs.ExpressionMustReturnABoolean.run b q).map SinkCall.message) ∧
    (∀ (a b : SimpleSelectStatement) (p q : Unit), p = q →
      (ReportAs.AllStarSelectionRequiresTableSources.run a p).map SinkCall.message =
        (ReportAs.AllStarSelectionRequiresTableSources.run b q).map SinkCall.message) ∧
    (∀ (a b : GlobalReference) (p q : Unit), p = q →
      (ReportAs.TableDefinitionRequiresAtLeastOneColumn.run a p).map SinkCall.message =
        (ReportAs.TableDefinitionRequiresAtLeastOneColumn.run b q).map SinkCall.message) ∧
    (∀ (a b : SubQueryExpression) (p q : Unit), p = q →
      (ReportAs.SubQueriesWithinSelectStatementsMustHaveExactlyOneColumn.run a p).map SinkCall.message =
        (ReportAs.SubQueriesWithinSelectStatementsMustHaveExactlyOneColumn.run b q).map SinkCall.message) ∧
    (∀ (a b : Expression) (p q : Unit), p = q →
      (ReportAs.CannotDeriveTypeOfExpression.run a p).map SinkCall.message =
        (ReportAs.CannotDeriveTypeOfExpression.run b q).map SinkCall.message) ∧
    (∀ (a b : BinaryTableExpression) (p q : Unit), p = q →
      (ReportAs.TableOperationUsesTablesWithDifferentColumnCounts.run a p).map SinkCall.message =
        (ReportAs.TableOperationUsesTablesWithDifferentColumnCounts.run b q).map SinkCall.message) ∧
    (∀ (a b : BinaryTableExpression) (p q : ColumnIndexed), p = q →
      (ReportAs.TableOperationUsesTablesWithDifferentColumnTypes.run a p).map SinkCall.message =
        (ReportAs.TableOperationUsesTablesWithDifferentColumnTypes.run b q).map SinkCall.message) ∧
    (∀ (a b : GlobalReference) (p q : ExpectedReceived), p = q →
      (ReportAs.IncorrectGlobalReferenceTarget.run a p).map SinkCall.message =
        (ReportAs.IncorrectGlobalReferenceTarget.run b q).map SinkCall.message) ∧
    (∀ (a b : DataType) (p q : DataTypeParam), p = q →
      (ReportAs.UnknownDataType.run a p).map SinkCall.message =
        (ReportAs.UnknownDataType.run b q).map SinkCall.message) :=
  ⟨fun a b p q h => by subst h; rfl, fun a b p q h => by subst h; rfl, fun a b p q h => by subst h; rfl, fun a b p q h => by subst h; rfl, fun a b p q h => by subst h; rfl, fun a b p q h => by subst h; rfl, fun a b p q h => by subst h; rfl, fun a b p q h => by subst h; rfl, fun a b p q h => by subst h; rfl, fun a b p q h => by subst h; rfl, fun a b p q h => by subst h; rfl, fun a b p q h => by subst h; rfl, fun a b p q h => by subst h; rfl⟩

/-- Witness for C6: two invocations of the duplicate-name reporter on
different nodes with equal parameters render the same message. -/
theorem C6_witness :
    (ReportAs.DuplicatedVariableName.run ⟨0⟩ ⟨"x"⟩).map SinkCall.message =
      (ReportAs.DuplicatedVariableName.run ⟨1⟩ ⟨"x"⟩).map SinkCall.message :=
  C6_rendering_deterministic.1 ⟨0⟩ ⟨1⟩ ⟨"x"⟩ ⟨"x"⟩ rfl

/-- C7: every reporter built by the factory exposes the code it was
created with as its Code field, and every diagnostic it forwards to
the sink carries that same code. -/
theorem C7_code_introspection {T P : Type} (c : String) (s : SqlErrorSeverity)
    (m : P → String) (d : T → DiagnosticInfo T) :
    (SqlErrorFactory.create c s m d).Code = c ∧
    ∀ (n : T) (p : P), ∀ k ∈ (SqlErrorFactory.create c s m d).run n p,
      k.info.code = some c :=
  ⟨rfl, by
    intro n p k hk
    have hk' : k ∈ [(⟨s, m p, { d n with code := some c }⟩ : SinkCall T)] := hk
    rw [List.mem_singleton] at hk'
    subst hk'
    rfl⟩

/-- Witness for C7 at the first catalog entry and a concrete call. -/
theorem C7_witness :
    (SqlErrorFactory.create "SQL00001" SqlErrorSeverity.error duplicatedVariableNameMessage
        duplicatedVariableNameDiagnostic).Code = "SQL00001" ∧
    (⟨SqlErrorSeverity.error, "Duplicated variable name 'x'.",
        ⟨⟨0⟩, some "name", none, some "SQL00001"⟩⟩ : SinkCall SourceItem).info.code =
      some "SQL00001" :=
  ⟨(C7_code_introspection "SQL00001" SqlErrorSeverity.error duplicatedVariableNameMessage
      duplicatedVariableNameDiagnostic).1,
   (C7_code_introspection "SQL00001" SqlErrorSeverity.error duplicatedVariableNameMessage
      duplicatedVariableNameDiagnostic).2 ⟨0⟩ ⟨"x"⟩ _ (by decide)⟩

/-- C8: one reporter invocation performs exactly one sink call, whose
message is the renderer applied to the parameter record and whose
target is the resolver applied to the node stamped with the code; the
invocation's result is exactly the sink's result, so a failure raised
by the sink propagates unchanged to the caller. -/
theorem C8_single_sink_call {T P ρ E : Type} (c : String) (s : SqlErrorSeverity)
    (m : P → String) (d : T → DiagnosticInfo T) (n : T) (p : P)
    (a : SqlErrorSeverity → String → DiagnosticInfo T → ρ) (e : E) :
    (SqlErrorFactory.create c s m d).call n p a = a s (m p) { d n with code := some c } ∧
    (SqlErrorFactory.create c s m d).call n p
      (fun _ _ _ => (Except.error e : Except E Unit)) = Except.error e :=
  ⟨rfl, rfl⟩

/-- C9: although the data model admits four distinct severity levels,
every one of the 13 catalog entries is registered with severity error,
so every diagnostic a catalog reporter forwards carries severity
error. -/
theorem C9_severity_always_error :
    ((∀ s : SqlErrorSeverity, s ∈ [SqlErrorSeverity.error, SqlErrorSeverity.warning,
        SqlErrorSeverity.info, SqlErrorSeverity.hint]) ∧
      [SqlErrorSeverity.error, SqlErrorSeverity.warning, SqlErrorSeverity.info,
        SqlErrorSeverity.hint].Nodup) ∧
    (∀ (n : SourceItem) (p : Nameable), ∀ k ∈ ReportAs.DuplicatedVariableName.run n p,
      k.severity = SqlErrorSeverity.error) ∧
    (∀ (n : NumberLiteral) (p : NumericValue), ∀ k ∈ ReportAs.NumericValueIsNotInteger.run n p,
      k.severity = SqlErrorSeverity.error) ∧
    (∀ (n : BinaryExpression) (p : BinaryOperatorMismatch), ∀ k ∈ ReportAs.BinaryOperatorNotDefinedForGivenExpressions.run n p,
      k.severity = SqlErrorSeverity.error) ∧
    (∀ (n : UnaryExpression) (p : UnaryOperatorMismatch), ∀ k ∈ ReportAs.UnaryOperatorNotDefinedForGivenExpression.run n p,
      k.severity = SqlErrorSeverity.error) ∧
    (∀ (n : Expression) (p : TypeDescriptor), ∀ k ∈ ReportAs.ExpressionMustReturnABoolean.run n p,
      k.severity = SqlErrorSeverity.error) ∧
    (∀ (n : SimpleSelectStatement) (p : Unit), ∀ k ∈ ReportAs.AllStarSelectionRequiresTableSources.run n p,
      k.severity = SqlErrorSeverity.error) ∧
    (∀ (n : GlobalReference) (p : Unit), ∀ k ∈ ReportAs.TableDefinitionRequiresAtLeastOneColumn.run n p,
      k.severity = SqlErrorSeverity.error) ∧
    (∀ (n : SubQueryExpression) (p : Unit), ∀ k ∈ ReportAs.SubQueriesWithinSelectStatementsMustHaveExactlyOneColumn.run n p,
      k.severity = SqlErrorSeverity.error) ∧
    (∀ (n : Expression) (p : Unit), ∀ k ∈ ReportAs.CannotDeriveTypeOfExpression.run n p,
      k.severity = SqlErrorSeverity.error) ∧
    (∀ (n : BinaryTableExpression) (p : Unit), ∀ k ∈ ReportAs.TableOperationUsesTablesWithDifferentColumnCounts.run n p,
      k.severity = SqlErrorSeverity.error) ∧
    (∀ (n : BinaryTableExpression) (p : ColumnIndexed), ∀ k ∈ ReportAs.TableOperationUsesTablesWithDifferentColumnTypes.run n p,
      k.severity = SqlErrorSeverity.error) ∧
    (∀ (n : GlobalReference) (p : ExpectedReceived), ∀ k ∈ ReportAs.IncorrectGlobalReferenceTarget.run n p,
      k.severity = SqlErrorSeverity.error) ∧
    (∀ (n : DataType) (p : DataTypeParam), ∀ k ∈ ReportAs.UnknownDataType.run n p,
      k.severity = SqlErrorSeverity.error) :=
  ⟨⟨fun s => by cases s <;> simp, by decide⟩,
   fun n p => severity_of_run_create _ _ _ _ n p,
   fun n p => severity_of_run_create _ _ _ _ n p,
   fun n p => severity_of_run_create _ _ _ _ n p,
   fun n p => severity_of_run_create _ _ _ _ n p,
   fun n p => severity_of_run_create _ _ _ _ n p,
   fun n p => severity_of_run_create _ _ _ _ n p,
   fun n p => severity_of_run_create _ _ _ _ n p,
   fun n p => severity_of_run_create _ _ _ _ n p,
   fun n p => severity_of_run_create _ _ _ _ n p,
   fun n p => severity_of_run_create _ _ _ _ n p,
   fun n p => severity_of_run_create _ _ _ _ n p,
   fun n p => severity_of_run_create _ _ _ _ n p,
   fun n p => severity_of_run_create _ _ _ _ n p⟩

/-- Witness for C9 at a concrete invocation of the first entry. -/
theorem C9_witness :
    (⟨SqlErrorSeverity.error, "Duplicated variable name 'x'.",
        ⟨⟨0⟩, some "name", none, some "SQL00001"⟩⟩ : SinkCall SourceItem).severity =
      SqlErrorSeverity.error ∧
    SqlErrorSeverity.error ∈ [SqlErrorSeverity.error, SqlErrorSeverity.warning,
      SqlErrorSeverity.info, SqlErrorSeverity.hint] :=
  ⟨C9_severity_always_error.2.1 ⟨0⟩ ⟨"x"⟩ _ (by decide),
   C9_severity_always_error.1.1 SqlErrorSeverity.error⟩

/-- C10: the diagnostic info forwarded by every catalog reporter is
the object freshly constructed by the entry's resolver from the very
node argument (whose node field is that argument), with the code field
as the only field changed by the stamping; the resolver's output
carries no code before stamping. -/
theorem C10_info_freshness :
    (∀ (n : SourceItem) (p : Nameable),
      ReportAs.DuplicatedVariableName.run n p =
        [⟨SqlErrorSeverity.error, duplicatedVariableNameMessage p, { duplicatedVariableNameDiagnostic n with code := some "SQL00001" }⟩] ∧
      (duplicatedVariableNameDiagnostic n).node = n ∧ (duplicatedVariableNameDiagnostic n).code = none) ∧
    (∀ (n : NumberLiteral) (p : NumericValue),
      ReportAs.NumericValueIsNotInteger.run n p =
        [⟨SqlErrorSeverity.error, numericValueIsNotIntegerMessage p, { numericValueIsNotIntegerDiagnostic n with code := some "SQL00002" }⟩] ∧
      (numericValueIsNotIntegerDiagnostic n).node = n ∧ (numericValueIsNotIntegerDiagnostic n).code = none) ∧
    (∀ (n : BinaryExpression) (p : BinaryOperatorMismatch),
      ReportAs.BinaryOperatorNotDefinedForGivenExpressions.run n p =
        [⟨SqlErrorSeverity.error, binaryOperatorNotDefinedMessage p, { binaryOperatorNotDefinedDiagnostic n with code := some "SQL00003" }⟩] ∧
      (binaryOperatorNotDefinedDiagnostic n).node = n ∧ (binaryOperatorNotDefinedDiagnostic n).code = none) ∧
    (∀ (n : UnaryExpression) (p : UnaryOperatorMismatch),
      ReportAs.UnaryOperatorNotDefinedForGivenExpression.run n p =
        [⟨SqlErrorSeverity.error, unaryOperatorNotDefinedMessage p, { unaryOperatorNotDefinedDiagnostic n with code := some "SQL00004" }⟩] ∧
      (unaryOperatorNotDefinedDiagnostic n).node = n ∧ (unaryOperatorNotDefinedDiagnostic n).code = none) ∧
    (∀ (n : Expression) (p : TypeDescriptor),
      ReportAs.ExpressionMustReturnABoolean.run n p =
        [⟨SqlErrorSeverity.error, expressionMustReturnABooleanMessage p, { expressionMustReturnABooleanDiagnostic n with code := some "SQL00005" }⟩] ∧
      (expressionMustReturnABooleanDiagnostic n).node = n ∧ (expressionMustReturnABooleanDiagnostic n).code = none) ∧
    (∀ (n : SimpleSelectStatement) (p : Unit),
      ReportAs.AllStarSelectionRequiresTableSources.run n p =
        [⟨SqlErrorSeverity.error, allStarSelectionMessage p, { allStarSelectionDiagnostic n with code := some "SQL00006" }⟩] ∧
      (allStarSelectionDiagnostic n).node = n ∧ (allStarSelectionDiagnostic n).code = none) ∧
    (∀ (n : GlobalReference) (p : Unit),
      ReportAs.TableDefinitionRequiresAtLeastOneColumn.run n p =
        [⟨SqlErrorSeverity.error, tableDefinitionRequiresColumnMessage p, { tableDefinitionRequiresColumnDiagnostic n with code := some "SQL00007" }⟩] ∧
      (tableDefinitionRequiresColumnDiagnostic n).node = n ∧ (tableDefinitionRequiresColumnDiagnostic n).code = none) ∧
    (∀ (n : SubQueryExpression) (p : Unit),
      ReportAs.SubQueriesWithinSelectStatementsMustHaveExactlyOneColumn.run n p =
        [⟨SqlErrorSeverity.error, subQueriesOneColumnMessage p, { subQueriesOneColumnDiagnostic n with code := some "SQL00008" }⟩] ∧
      (subQueriesOneColumnDiagnostic n).node = n ∧ (subQueriesOneColumnDiagnostic n).code = none) ∧
    (∀ (n : Expression) (p : Unit),
      ReportAs.CannotDeriveTypeOfExpression.run n p =
        [⟨SqlErrorSeverity.error, cannotDeriveTypeMessage p, { cannotDeriveTypeDiagnostic n with code := some "SQL00009" }⟩] ∧
      (cannotDeriveTypeDiagnostic n).node = n ∧ (cannotDeriveTypeDiagnostic n).code = none) ∧
    (∀ (n : BinaryTableExpression) (p : Unit),
      ReportAs.TableOperationUsesTablesWithDifferentColumnCounts.run n p =
        [⟨SqlErrorSeverity.error, differentColumnCountsMessage p, { differentColumnCountsDiagnostic n with code := some "SQL00010" }⟩] ∧
      (differentColumnCountsDiagnostic n).node = n ∧ (differentColumnCountsDiagnostic n).code = none) ∧
    (∀ (n : BinaryTableExpression) (p : ColumnIndexed),
      ReportAs.TableOperationUsesTablesWithDifferentColumnTypes.run n p =
        [⟨SqlErrorSeverity.error, differentColumnTypesMessage p, { differentColumnTypesDiagnostic n with code := some "SQL00011" }⟩] ∧
      (differentColumnTypesDiagnostic n).node = n ∧ (differentColumnTypesDiagnostic n).code = none) ∧
    (∀ (n : GlobalReference) (p : ExpectedReceived),
      ReportAs.IncorrectGlobalReferenceTarget.run n p =
        [⟨SqlErrorSeverity.error, incorrectGlobalReferenceTargetMessage p, { incorrectGlobalReferenceTargetDiagnostic n with code := some "SQL00012" }⟩] ∧
      (incorrectGlobalReferenceTargetDiagnostic n).node = n ∧ (incorrectGlobalReferenceTargetDiagnostic n).code = none) ∧
    (∀ (n : DataType) (p : DataTypeParam),
      ReportAs.UnknownDataType.run n p =
        [⟨SqlErrorSeverity.error, unknownDataTypeMessage p, { unknownDataTypeDiagnostic n with code := some "SQL00013" }⟩] ∧
      (unknownDataTypeDiagnostic n).node = n ∧ (unknownDataTypeDiagnostic n).code = none) :=
  ⟨fun _ _ => ⟨rfl, rfl, rfl⟩,
   fun _ _ => ⟨rfl, rfl, rfl⟩,
   fun _ _ => ⟨rfl, rfl, rfl⟩,
   fun _ _ => ⟨rfl, rfl, rfl⟩,
   fun _ _ => ⟨rfl, rfl, rfl⟩,
   fun _ _ => ⟨rfl, rfl, rfl⟩,
   fun _ _ => ⟨rfl, rfl, rfl⟩,
   fun _ _ => ⟨rfl, rfl, rfl⟩,
   fun _ _ => ⟨rfl, rfl, rfl⟩,
   fun _ _ => ⟨rfl, rfl, rfl⟩,
   fun _ _ => ⟨rfl, rfl, rfl⟩,
   fun _ _ => ⟨rfl, rfl, rfl⟩,
   fun _ _ => ⟨rfl, rfl, rfl⟩⟩
